import Mathlib

/-!
Verification of the InvenTree order fulfillment and stock allocation logic
against its design specification.

The serializer-level validation and save logic is translated directly from
`src/InvenTree/order/serializers.py`.  Model-level helpers that live in
modules outside the provided sources (`order/models.py`, `stock/models.py`,
`InvenTree/helpers.py`, `part/models.py`) are modelled from the
specification; each such definition carries a doc comment starting with
`Modelled from the spec:`.

Quantities are represented as rationals (the source uses `Decimal`), primary
keys as naturals, and dates as `Option Nat` (`none` meaning a null date).
Serializer validation is modelled as a function into `Except ValidationError`;
the REST framework dispatch (field validators named `validate_<field>` run in
field declaration order, then the `validate` method) is made explicit in the
`RunValidation` functions.  The `Apply` functions model one request against a
database state: a validation error means `save` is never invoked, and an
error raised inside a `transaction.atomic` block rolls the state back.
-/

namespace InvenTree

/-- A field-keyed validation error as raised by the serializer layer.  The
`field` component is `none` for a non-field error. -/
structure ValidationError where
  field : Option String
  msg : String
deriving DecidableEq

/-- Modelled from the spec: `StockItem` (`stock/models.py` is not among the
provided sources).  Attributes per spec section 3: part reference, quantity
(decimal), optional serial identifier, location, status code, barcode hash. -/
structure StockItem where
  id : Nat
  part : Nat
  serial : Option String
  quantity : ℚ
  location : Option Nat
  status : Nat
  batch_code : String
  barcode_hash : Option String
deriving DecidableEq

/-- Modelled from the spec: a serialized stock item is one whose `serial`
identifier is non-null (spec section 3 invariant wording and the allocation
rules of section 4.2). -/
def StockItem.serialized (st : StockItem) : Bool :=
  st.serial.isSome

/-- A `SalesOrderAllocation` row: a reservation of a quantity of a stock item
against a sales order line and a shipment (spec section 3). -/
structure SalesOrderAllocation where
  line : Nat
  item : Nat
  quantity : ℚ
  shipment : Nat
deriving DecidableEq

/-- A `SalesOrderLineItem`, reduced to the fields the allocation and
completion serializers consult: primary key, owning order, referenced part,
requested quantity and shipped quantity. -/
structure SalesOrderLineItem where
  id : Nat
  order : Nat
  part : Nat
  quantity : ℚ
  shipped : ℚ
deriving DecidableEq

/-- A `SalesOrderShipment`, reduced to the fields the allocation serializers
consult: its primary key, owning order and (possibly null) shipment date. -/
structure Shipment where
  id : Nat
  order : Nat
  shipment_date : Option Nat
deriving DecidableEq

/-- The sales-side database state touched by the allocation serializers: the
stock items and the allocation ledger. -/
structure SalesState where
  stockItems : List StockItem
  allocations : List SalesOrderAllocation
deriving DecidableEq

/-- Modelled from the spec: `StockItem.unallocated_quantity` from
`stock/models.py` is not among the provided sources; spec section 4.2 defines
it as the item quantity minus the sum of the existing allocation quantities
against the item. -/
def unallocated_quantity (st : StockItem) (allocs : List SalesOrderAllocation) : ℚ :=
  st.quantity - ((allocs.filter (fun a => a.item = st.id)).map (fun a => a.quantity)).sum

/-- Modelled from the spec: `InvenTree.helpers.normalize` is not among the
provided sources; it strips trailing zeros from a `Decimal`, which is the
numeric identity on rationals. -/
def normalize (q : ℚ) : ℚ := q

/-- Runs a per-element validator over a list, stopping at the first error:
the shape of every batch validation loop in `order/serializers.py`. -/
def validateAll {α : Type} (f : α → Except ValidationError Unit) :
    List α → Except ValidationError Unit
  | [] => Except.ok ()
  | a :: as =>
    match f a with
    | Except.error e => Except.error e
    | Except.ok _ => validateAll f as

/-- `SalesOrderShipmentAllocationItemSerializer.validate`
(`order/serializers.py` lines 1103-1126): reject a non-unit quantity against
a serialized stock item, then reject a quantity exceeding the normalized
unallocated quantity. -/
def soAllocationItemValidate (allocs : List SalesOrderAllocation)
    (stock_item : StockItem) (quantity : ℚ) : Except ValidationError Unit :=
  if stock_item.serialized = true ∧ quantity ≠ 1 then
    Except.error ⟨some "quantity", "Quantity must be 1 for serialized stock item"⟩
  else if quantity > normalize (unallocated_quantity stock_item allocs) then
    Except.error ⟨some "quantity", "Available quantity exceeded"⟩
  else
    Except.ok ()

/-- One entry of the `items` list posted to
`SalesOrderShipmentAllocationSerializer`. -/
structure SOAllocationInput where
  line_item : SalesOrderLineItem
  stock_item : StockItem
  quantity : ℚ
deriving DecidableEq

/-- The full framework validation of one allocation item: the field
validators `validate_line_item` (line must belong to the order,
`order/serializers.py` lines 1068-1079) and `validate_quantity` (positive,
lines 1096-1101) run before the `validate` method. -/
def soAllocationItemRunValidation (ord : Nat) (allocs : List SalesOrderAllocation)
    (it : SOAllocationInput) : Except ValidationError Unit :=
  if it.line_item.order ≠ ord then
    Except.error ⟨some "line_item", "Line item is not associated with this order"⟩
  else if it.quantity ≤ 0 then
    Except.error ⟨some "quantity", "Quantity must be positive"⟩
  else
    soAllocationItemValidate allocs it.stock_item it.quantity

/-- `SalesOrderShipmentAllocationSerializer.validate_shipment`
(`order/serializers.py` lines 1385-1395): the shipment must not be shipped
already and must belong to the order. -/
def soShipmentAllocValidateShipment (ord : Nat) (sh : Shipment) :
    Except ValidationError Unit :=
  if sh.shipment_date.isSome = true then
    Except.error ⟨none, "Shipment has already been shipped"⟩
  else if sh.order ≠ ord then
    Except.error ⟨none, "Shipment is not associated with this order"⟩
  else
    Except.ok ()

/-- `SalesOrderSerialAllocationSerializer.validate_shipment`
(`order/serializers.py` lines 1257-1271): same two checks, shipped first. -/
def soSerialAllocValidateShipment (ord : Nat) (sh : Shipment) :
    Except ValidationError Unit :=
  if sh.shipment_date.isSome = true then
    Except.error ⟨none, "Shipment has already been shipped"⟩
  else if sh.order ≠ ord then
    Except.error ⟨none, "Shipment is not associated with this order"⟩
  else
    Except.ok ()

/-- The full framework validation of `SalesOrderShipmentAllocationSerializer`:
the nested `items` children validate first (field declaration order), then
`validate_shipment`, then `validate` (`order/serializers.py` lines
1397-1409) which rejects an empty item list. -/
def soShipmentAllocationRunValidation (ord : Nat) (st : SalesState)
    (sh : Shipment) (items : List SOAllocationInput) : Except ValidationError Unit :=
  match validateAll (soAllocationItemRunValidation ord st.allocations) items with
  | Except.error e => Except.error e
  | Except.ok _ =>
    match soShipmentAllocValidateShipment ord sh with
    | Except.error e => Except.error e
    | Except.ok _ =>
      if items.isEmpty = true then
        Except.error ⟨none, "Allocation items must be provided"⟩
      else
        Except.ok ()

/-- Modelled from the spec: the model-level `full_clean` of a
`SalesOrderAllocation` (`order/models.py` is not among the provided sources)
enforces the spec section 3 invariants: the allocated quantity cannot exceed
the unallocated quantity of the stock item, and a serialized item carries a
unit allocation. -/
def allocationFullClean (s : SalesState) (item : StockItem)
    (a : SalesOrderAllocation) : Except ValidationError Unit :=
  if a.quantity > unallocated_quantity item s.allocations then
    Except.error ⟨some "quantity", "Allocation quantity exceeds stock quantity"⟩
  else if item.serialized = true ∧ a.quantity ≠ 1 then
    Except.error ⟨some "quantity", "Quantity must be 1 for serialized stock"⟩
  else
    Except.ok ()

/-- `SalesOrderShipmentAllocationSerializer.save` (`order/serializers.py`
lines 1411-1430): inside one atomic transaction, build an allocation per
item, `full_clean` it, and persist it. -/
def soShipmentAllocationSave (sh : Shipment) :
    List SOAllocationInput → SalesState → Except ValidationError SalesState
  | [], s => Except.ok s
  | it :: rest, s =>
    let a : SalesOrderAllocation :=
      ⟨it.line_item.id, it.stock_item.id, it.quantity, sh.id⟩
    match allocationFullClean s it.stock_item a with
    | Except.error e => Except.error e
    | Except.ok _ =>
      soShipmentAllocationSave sh rest { s with allocations := s.allocations ++ [a] }

/-- One bulk-allocation request applied to a database state: a validation
error means `save` never runs; an error inside the `transaction.atomic`
block of `save` rolls the whole state back. -/
def soShipmentAllocationApply (ord : Nat) (st : SalesState) (sh : Shipment)
    (items : List SOAllocationInput) : SalesState :=
  match soShipmentAllocationRunValidation ord st sh items with
  | Except.error _ => st
  | Except.ok _ =>
    match soShipmentAllocationSave sh items st with
    | Except.error _ => st
    | Except.ok s => s

/-- Splits a character list at the separators selected by `p`, keeping empty
segments. -/
def splitChars (p : Char → Bool) : List Char → List (List Char)
  | [] => [[]]
  | c :: cs =>
    if p c then [] :: splitChars p cs
    else
      match splitChars p cs with
      | [] => [[c]]
      | t :: ts => (c :: t) :: ts

/-- Modelled from the spec: tokenization of a serial number specification
(`InvenTree/helpers.py` is not among the provided sources); spec section 4.1
tokenizes on commas and whitespace, the empty tokens being discarded. -/
def snTokenize (s : String) : List (List Char) :=
  (splitChars (fun c => c == ',' || c.isWhitespace) s.data).filter
    (fun t => !t.isEmpty)

/-- Parses a non-empty all-digit character list as a natural number. -/
def digitsToNat? (l : List Char) : Option Nat :=
  if l.isEmpty then none
  else if l.all (fun c => c.isDigit) then
    some (l.foldl (fun n c => 10 * n + (c.toNat - 48)) 0)
  else none

/-- Builds the list of decimal strings `start, start + 1, ...` of the given
length. -/
def natRangeStrings (start len : Nat) : List String :=
  (List.range len).map (fun i => toString (start + i))

/-- Modelled from the spec: expansion of a single token of the serial
specification grammar (spec section 4.1), calibrated against the concrete
behaviours asserted by `TestSerialNumberExtraction` in
`src/InvenTree/InvenTree/tests.py` lines 584-725:

- a numeric range `A-B` (exactly one hyphen, both sides plain integers)
  expands to the consecutive integers `A..B`; a descending range fails, as
  does a range whose span exceeds the remaining expected count;
- a token with exactly one hyphen of which exactly one side is a plain
  integer is an invalid group, while a token with two or more hyphens, or
  with neither side an integer, is a single literal;
- an increment `N+K` expands to the `K + 1` consecutive integers starting at
  `N`, and `N+` expands to enough consecutive integers starting at `N` to
  fill the remaining expected count;
- the placeholder forms `~`, `~+K` and `~+` behave as the increment forms
  anchored one past the running counter, which is seeded with `next_hint`
  (the latest existing serial) and advanced by each placeholder expansion;
- any other token is a single literal serial.

The result pairs the expanded serials with the updated counter. -/
def snExpandToken (remaining counter : Nat) (tok : List Char) :
    Except ValidationError (List String × Nat) :=
  match tok with
  | ['~'] => Except.ok ([toString (counter + 1)], counter + 1)
  | '~' :: '+' :: rest =>
    if rest.isEmpty then
      Except.ok (natRangeStrings (counter + 1) remaining, counter + remaining)
    else
      match digitsToNat? rest with
      | some k => Except.ok (natRangeStrings (counter + 1) (k + 1), counter + k + 1)
      | none => Except.error ⟨none, "Invalid group sequence"⟩
  | _ =>
    if (tok.filter (fun c => c == '-')).length = 1 then
      match splitChars (fun c => c == '-') tok with
      | [a, b] =>
        match digitsToNat? a, digitsToNat? b with
        | some x, some y =>
          if y < x then Except.error ⟨none, "Invalid group range"⟩
          else if remaining < y - x + 1 then
            Except.error ⟨none, "Group range exceeds remaining quantity"⟩
          else Except.ok (natRangeStrings x (y - x + 1), counter)
        | some _, none => Except.error ⟨none, "Invalid group range"⟩
        | none, some _ => Except.error ⟨none, "Invalid group range"⟩
        | none, none => Except.ok ([String.mk tok], counter)
      | _ => Except.ok ([String.mk tok], counter)
    else if tok.contains '-' then
      Except.ok ([String.mk tok], counter)
    else if tok.getLast? == some '+' then
      match digitsToNat? tok.dropLast with
      | some n => Except.ok (natRangeStrings n remaining, counter)
      | none => Except.error ⟨none, "Invalid group sequence"⟩
    else
      match splitChars (fun c => c == '+') tok with
      | [a, b] =>
        match digitsToNat? a, digitsToNat? b with
        | some n, some k => Except.ok (natRangeStrings n (k + 1), counter)
        | _, _ => Except.ok ([String.mk tok], counter)
      | _ => Except.ok ([String.mk tok], counter)

/-- Expands all tokens in input order, threading the placeholder counter and
accumulating the serials (spec section 4.1 algorithm). -/
def snExpandAll (expected : Nat) : List (List Char) → Nat → List String →
    Except ValidationError (List String)
  | [], _, acc => Except.ok acc
  | t :: ts, counter, acc =>
    match snExpandToken (expected - acc.length) counter t with
    | Except.error e => Except.error e
    | Except.ok (xs, c) => snExpandAll expected ts c (acc ++ xs)

/-- Modelled from the spec: `extract_serial_numbers` from
`InvenTree/helpers.py` is not among the provided sources.  Spec section 4.1:
tokenize the specification, expand each token in input order, then fail on
an empty specification, on a resulting sequence whose length differs from
the expected count, or on a duplicate value in the resulting sequence. -/
def extract_serial_numbers (spec : String) (expected : Nat) (next_hint : Nat) :
    Except ValidationError (List String) :=
  if (snTokenize spec).isEmpty = true then
    Except.error ⟨none, "Empty serial number specification"⟩
  else
    match snExpandAll expected (snTokenize spec) next_hint [] with
    | Except.error e => Except.error e
    | Except.ok serials =>
      if serials.length = expected then
        if serials.Nodup then Except.ok serials
        else Except.error ⟨none, "Duplicate serial numbers found"⟩
      else Except.error ⟨none, "Number of serial numbers must match quantity"⟩

/-- Modelled from the spec: `Part.get_latest_serial_number`
(`part/models.py` is not among the provided sources) returns the latest
existing serial for the part, used to seed the extractor (spec section 4.4
step 4); modelled as the greatest numeric serial among the stock items of
the part, `0` when there is none. -/
def getLatestSerialNumber (items : List StockItem) (part : Nat) : Nat :=
  (items.filter (fun st => st.part == part)).foldl
    (fun m st =>
      match st.serial with
      | some s =>
        match digitsToNat? s.data with
        | some n => max m n
        | none => m
      | none => m) 0

/-- One step of the serial lookup loop of
`SalesOrderSerialAllocationSerializer.validate` (`order/serializers.py`
lines 1299-1319): the accumulator collects the serials with no matching
stock item, the serials already allocated, and the stock items to
allocate. -/
def soSerialLookupStep (st : SalesState) (part : Nat)
    (acc : List String × List String × List StockItem) (serial : String) :
    List String × List String × List StockItem :=
  match (st.stockItems.filter
      (fun x => x.part == part && x.serial == some serial && x.quantity == 1)).head? with
  | none => (acc.1 ++ [serial], acc.2.1, acc.2.2)
  | some stock_item =>
    if unallocated_quantity stock_item st.allocations = 1 then
      (acc.1, acc.2.1, acc.2.2 ++ [stock_item])
    else
      (acc.1, acc.2.1 ++ [serial], acc.2.2)

/-- `SalesOrderSerialAllocationSerializer.validate` (`order/serializers.py`
lines 1273-1343): extract the serial numbers, look each one up, and fail on
missing or already-allocated serials; on success return the stock items to
allocate. -/
def soSerialAllocationValidate (st : SalesState) (line_item : SalesOrderLineItem)
    (quantity : Nat) (serial_numbers : String) :
    Except ValidationError (List StockItem) :=
  match extract_serial_numbers serial_numbers quantity
      (getLatestSerialNumber st.stockItems line_item.part) with
  | Except.error e => Except.error ⟨some "serial_numbers", e.msg⟩
  | Except.ok serials =>
    let r := serials.foldl (soSerialLookupStep st line_item.part) ([], [], [])
    if r.1.isEmpty = false then
      Except.error ⟨some "serial_numbers", "No match found for the following serial numbers"⟩
    else if r.2.1.isEmpty = false then
      Except.error ⟨some "serial_numbers", "The following serial numbers are already allocated"⟩
    else
      Except.ok r.2.2

/-- The full framework validation of `SalesOrderSerialAllocationSerializer`:
the field validators run in declaration order (`validate_line_item`,
the integer field bound on `quantity`, the non-blank constraint on
`serial_numbers`, `validate_shipment`), then the `validate` method. -/
def soSerialAllocationRunValidation (ord : Nat) (st : SalesState)
    (line_item : SalesOrderLineItem) (quantity : Nat) (serial_numbers : String)
    (sh : Shipment) : Except ValidationError (List StockItem) :=
  if line_item.order ≠ ord then
    Except.error ⟨some "line_item", "Line item is not associated with this order"⟩
  else if quantity < 1 then
    Except.error ⟨some "quantity", "Ensure this value is greater than or equal to 1"⟩
  else if serial_numbers = "" then
    Except.error ⟨some "serial_numbers", "This field may not be blank"⟩
  else
    match soSerialAllocValidateShipment ord sh with
    | Except.error e => Except.error e
    | Except.ok _ => soSerialAllocationValidate st line_item quantity serial_numbers

/-- `SalesOrderSerialAllocationSerializer.save` (`order/serializers.py`
lines 1345-1361): inside one atomic transaction, create a unit allocation
per validated stock item. -/
def soSerialAllocationSave (line_item : SalesOrderLineItem) (sh : Shipment)
    (stock_items : List StockItem) (s : SalesState) : SalesState :=
  { s with
    allocations :=
      s.allocations ++ stock_items.map (fun x => ⟨line_item.id, x.id, 1, sh.id⟩) }

/-- One serial-number allocation request applied to a database state: a
validation error means `save` never runs. -/
def soSerialAllocationApply (ord : Nat) (st : SalesState)
    (line_item : SalesOrderLineItem) (quantity : Nat) (serial_numbers : String)
    (sh : Shipment) : SalesState :=
  match soSerialAllocationRunValidation ord st line_item quantity serial_numbers sh with
  | Except.error _ => st
  | Except.ok stock_items => soSerialAllocationSave line_item sh stock_items st

/-- Bool test mirroring the Python predicate
`not barcode or barcode.strip() == ""`: the string is empty or consists only
of whitespace. -/
def isBlank (s : String) : Bool :=
  s.data.all (fun c => c.isWhitespace)

/-- Modelled from the spec: `InvenTree.helpers.hash_barcode` is not among
the provided sources; the spec only requires a lookup keyed by the hash of
the barcode data (section 6 barcode lookup service), so the hash is modelled
as the barcode string itself. -/
def hash_barcode (barcode : String) : String := barcode

/-- Modelled from the spec: `StockItem.lookup_barcode`
(`stock/models.py` is not among the provided sources) returns the stock item
to which the given barcode hash is assigned, if any (spec section 6 barcode
lookup service). -/
def lookup_barcode (items : List StockItem) (h : String) : Option StockItem :=
  (items.filter (fun st => st.barcode_hash == some h)).head?

/-- A `PurchaseOrderLineItem`, reduced to the fields the receipt and
completion serializers consult: primary key, owning order, requested and
received quantities, the destination returned by `get_destination`, the
referenced part and its trackable flag. -/
structure POLineItem where
  id : Nat
  order : Nat
  quantity : ℚ
  received : ℚ
  destination : Option Nat
  part : Nat
  trackable : Bool
deriving DecidableEq

/-- One entry of the `items` list posted to
`PurchaseOrderReceiveSerializer`, with the raw field values. -/
structure POReceiveItem where
  line_item : POLineItem
  location : Option Nat
  quantity : ℚ
  status : Nat
  batch_code : String
  serial_numbers : String
  barcode : String
deriving DecidableEq

/-- One receipt item after field validation: the barcode is normalized to
`none` when blank, and the extracted serials are attached when serial
numbers were supplied. -/
structure POValidatedItem where
  line_item : POLineItem
  location : Option Nat
  quantity : ℚ
  status : Nat
  batch_code : String
  barcode : Option String
  serials : Option (List String)
deriving DecidableEq

/-- The purchase-side database state touched by the receipt serializer: the
stock items and the purchase order line items. -/
structure POState where
  stockItems : List StockItem
  lines : List POLineItem
deriving DecidableEq

/-- `PurchaseOrderLineItemReceiveSerializer.validate_barcode`
(`order/serializers.py` lines 542-553): a blank barcode is normalized to
absent; otherwise the barcode hash must not be assigned to an existing
stock item. -/
def poValidateBarcode (stockItems : List StockItem) (barcode : String) :
    Except ValidationError (Option String) :=
  if isBlank barcode = true then
    Except.ok none
  else if (lookup_barcode stockItems (hash_barcode barcode)).isSome = true then
    Except.error ⟨some "barcode", "Barcode is already in use"⟩
  else
    Except.ok (some barcode)

/-- `PurchaseOrderLineItemReceiveSerializer.validate`
(`order/serializers.py` lines 555-592): a trackable part requires an
integer quantity in base units (the base-unit conversion
`line_item.part.base_quantity` is modelled as the identity, the pack size
not being specified); supplied serial numbers are run through the extractor
seeded with the latest serial of the base part. -/
def poItemValidate (stockItems : List StockItem) (it : POReceiveItem)
    (nb : Option String) : Except ValidationError POValidatedItem :=
  if it.line_item.trackable = true ∧ it.quantity.den ≠ 1 then
    Except.error ⟨some "quantity", "An integer quantity must be provided for trackable parts"⟩
  else if isBlank it.serial_numbers = false then
    match extract_serial_numbers it.serial_numbers it.quantity.floor.toNat
        (getLatestSerialNumber stockItems it.line_item.part) with
    | Except.error e => Except.error ⟨some "serial_numbers", e.msg⟩
    | Except.ok serials =>
      Except.ok ⟨it.line_item, it.location, it.quantity, it.status, it.batch_code, nb, some serials⟩
  else
    Except.ok ⟨it.line_item, it.location, it.quantity, it.status, it.batch_code, nb, none⟩

/-- The full framework validation of one receipt item: the field validators
`validate_line_item` (line must belong to the order, `order/serializers.py`
lines 481-486), `validate_quantity` (positive, lines 504-509) and
`validate_barcode` run before the `validate` method. -/
def poItemRunValidation (ord : Nat) (stockItems : List StockItem)
    (it : POReceiveItem) : Except ValidationError POValidatedItem :=
  if it.line_item.order ≠ ord then
    Except.error ⟨some "line_item", "Line item does not match purchase order"⟩
  else if it.quantity ≤ 0 then
    Except.error ⟨some "quantity", "Quantity must be greater than zero"⟩
  else
    match poValidateBarcode stockItems it.barcode with
    | Except.error e => Except.error e
    | Except.ok nb => poItemValidate stockItems it nb

/-- Validates every receipt item in order, collecting the validated items
and stopping at the first error (the nested list serializer). -/
def poItemsRunValidation (ord : Nat) (stockItems : List StockItem) :
    List POReceiveItem → Except ValidationError (List POValidatedItem)
  | [] => Except.ok []
  | it :: rest =>
    match poItemRunValidation ord stockItems it with
    | Except.error e => Except.error e
    | Except.ok v =>
      match poItemsRunValidation ord stockItems rest with
      | Except.error e => Except.error e
      | Except.ok vs => Except.ok (v :: vs)

/-- The location fallback applied per item by
`PurchaseOrderReceiveSerializer.validate` (`order/serializers.py` lines
632-642): the item location, else the batch-level default location, else
the destination of the line item. -/
def poEffectiveLocation (it : POValidatedItem) (default_location : Option Nat) :
    Option Nat :=
  match it.location with
  | some l => some l
  | none =>
    match default_location with
    | some l => some l
    | none => it.line_item.destination

/-- The location resolution loop of `PurchaseOrderReceiveSerializer.validate`
(`order/serializers.py` lines 632-647): each item's location is overwritten
with its effective location, and an unresolvable item raises an error on the
location field. -/
def poResolveLocations (default_location : Option Nat) :
    List POValidatedItem → Except ValidationError (List POValidatedItem)
  | [] => Except.ok []
  | it :: rest =>
    match poEffectiveLocation it default_location with
    | none => Except.error ⟨some "location", "Destination location must be specified"⟩
    | some l =>
      match poResolveLocations default_location rest with
      | Except.error e => Except.error e
      | Except.ok rs => Except.ok ({ it with location := some l } :: rs)

/-- The barcode uniqueness loop of `PurchaseOrderReceiveSerializer.validate`
(`order/serializers.py` lines 649-661): items whose normalized barcode is
absent are skipped; a barcode already seen in the batch is an error. -/
def poBarcodeCheck (seen : List String) :
    List POValidatedItem → Except ValidationError Unit
  | [] => Except.ok ()
  | it :: rest =>
    match it.barcode with
    | none => poBarcodeCheck seen rest
    | some b =>
      if b ∈ seen then
        Except.error ⟨none, "Supplied barcode values must be unique"⟩
      else
        poBarcodeCheck (seen ++ [b]) rest

/-- The full framework validation of `PurchaseOrderReceiveSerializer`: the
nested items validate first, then `validate` (`order/serializers.py` lines
616-661) rejects an empty batch, resolves the locations and checks barcode
uniqueness. -/
def poReceiveRunValidation (ord : Nat) (st : POState)
    (default_location : Option Nat) (items : List POReceiveItem) :
    Except ValidationError (List POValidatedItem) :=
  match poItemsRunValidation ord st.stockItems items with
  | Except.error e => Except.error e
  | Except.ok vitems =>
    if vitems.isEmpty = true then
      Except.error ⟨none, "Line items must be provided"⟩
    else
      match poResolveLocations default_location vitems with
      | Except.error e => Except.error e
      | Except.ok ritems =>
        match poBarcodeCheck [] ritems with
        | Except.error e => Except.error e
        | Except.ok _ => Except.ok ritems

/-- A model-level (Django `full_clean` style) validation error, as opposed
to the serializer-level `ValidationError`; the receipt save loop catches it
and re-raises it as the serializer error kind. -/
structure ModelError where
  msg : String
deriving DecidableEq

/-- Increments the received quantity of the line item with the given
primary key. -/
def incrementReceived (lines : List POLineItem) (lineId : Nat) (q : ℚ) :
    List POLineItem :=
  lines.map (fun l => if l.id = lineId then { l with received := l.received + q } else l)

/-- Modelled from the spec: creation of one stock item per extracted serial
(spec section 4.4 step 5), each of unit quantity; the model-level validation
enforces the spec section 3 invariant that a serial identifier is unique per
part, raising a model-level error on a serial that already exists. -/
def createSerializedStock (existing : List StockItem) (part : Nat)
    (loc : Option Nat) (status : Nat) (batch_code : String)
    (barcode : Option String) : List String → Except ModelError (List StockItem)
  | [] => Except.ok []
  | sn :: rest =>
    if existing.any (fun st => st.part == part && st.serial == some sn) = true then
      Except.error ⟨"Serial number already exists"⟩
    else
      match createSerializedStock
          (existing ++ [⟨0, part, some sn, 1, loc, status, batch_code, barcode.map hash_barcode⟩])
          part loc status batch_code barcode rest with
      | Except.error e => Except.error e
      | Except.ok items =>
        Except.ok (⟨0, part, some sn, 1, loc, status, batch_code, barcode.map hash_barcode⟩ :: items)

/-- Modelled from the spec: `PurchaseOrder.receive_line_item`
(`order/models.py` is not among the provided sources).  Spec section 4.4
step 5: create one stock item per extracted serial for serialized receipt
(unit quantity each) or one aggregate stock item otherwise, at the resolved
location with the given status and batch code, and increment the received
quantity of the line item; a model-level validation error aborts. -/
def receive_line_item (s : POState) (line : POLineItem) (loc : Option Nat)
    (quantity : ℚ) (status : Nat) (barcode : Option String) (batch_code : String)
    (serials : Option (List String)) : Except ModelError POState :=
  match serials with
  | some ss =>
    match createSerializedStock s.stockItems line.part loc status batch_code barcode ss with
    | Except.error e => Except.error e
    | Except.ok newItems =>
      Except.ok ⟨s.stockItems ++ newItems, incrementReceived s.lines line.id quantity⟩
  | none =>
    Except.ok
      ⟨s.stockItems ++
          [⟨0, line.part, none, quantity, loc, status, batch_code, barcode.map hash_barcode⟩],
        incrementReceived s.lines line.id quantity⟩

/-- `PurchaseOrderReceiveSerializer.save` (`order/serializers.py` lines
663-693): inside one atomic transaction, receive each item in order at the
location `item.location or line_item.get_destination() or location`; a
model-level error is caught and re-raised as the serializer validation
error kind. -/
def poReceiveSaveLoop (default_location : Option Nat) :
    List POValidatedItem → POState → Except ValidationError POState
  | [], s => Except.ok s
  | it :: rest, s =>
    let loc :=
      match it.location with
      | some l => some l
      | none =>
        match it.line_item.destination with
        | some l => some l
        | none => default_location
    match receive_line_item s it.line_item loc it.quantity it.status it.barcode
        it.batch_code it.serials with
    | Except.error e => Except.error ⟨none, e.msg⟩
    | Except.ok s2 => poReceiveSaveLoop default_location rest s2

/-- One receipt request run end to end: validation, then the save loop. -/
def poReceiveRun (ord : Nat) (st : POState) (default_location : Option Nat)
    (items : List POReceiveItem) : Except ValidationError POState :=
  match poReceiveRunValidation ord st default_location items with
  | Except.error e => Except.error e
  | Except.ok vitems => poReceiveSaveLoop default_location vitems st

/-- One receipt request applied to a database state: a validation error
means `save` never runs, and an error raised inside the `transaction.atomic`
block of `save` rolls the whole state back. -/
def poReceiveApply (ord : Nat) (st : POState) (default_location : Option Nat)
    (items : List POReceiveItem) : POState :=
  match poReceiveRun ord st default_location items with
  | Except.error _ => st
  | Except.ok s => s

/-- Refinement comparison: the location fallback order claimed by the spec
(section 4.4 step 2), written from the spec words: the item location, else
the destination of the line item, else the batch default. -/
def specEffectiveLocation (itemLoc lineDest default_location : Option Nat) :
    Option Nat :=
  match itemLoc with
  | some l => some l
  | none =>
    match lineDest with
    | some l => some l
    | none => default_location

/-- Modelled from the spec: `PurchaseOrder.is_complete` (`order/models.py`
is not among the provided sources): all line items fully received (spec
section 4.3). -/
def po_is_complete (lines : List POLineItem) : Bool :=
  lines.all (fun l => decide (l.quantity ≤ l.received))

/-- `PurchaseOrderCompleteSerializer.validate_accept_incomplete`
(`order/serializers.py` lines 273-281): without the override, an order with
incomplete line items cannot be completed. -/
def poValidateAcceptIncomplete (lines : List POLineItem) (value : Bool) :
    Except ValidationError Bool :=
  if value = false ∧ po_is_complete lines = false then
    Except.error ⟨some "accept_incomplete", "Order has incomplete line items"⟩
  else
    Except.ok value

/-- The full validation of `PurchaseOrderCompleteSerializer`: the only check
is the `accept_incomplete` field validator; on success `save` calls
`complete_order`. -/
def poCompleteRunValidation (lines : List POLineItem) (accept_incomplete : Bool) :
    Except ValidationError Unit :=
  match poValidateAcceptIncomplete lines accept_incomplete with
  | Except.error e => Except.error e
  | Except.ok _ => Except.ok ()

/-- Modelled from the spec: `SalesOrder.is_completed` (`order/models.py` is
not among the provided sources): all line items fully shipped (spec section
4.3). -/
def so_is_completed (lines : List SalesOrderLineItem) : Bool :=
  lines.all (fun l => decide (l.quantity ≤ l.shipped))

/-- `SalesOrderCompleteSerializer.validate_accept_incomplete`
(`order/serializers.py` lines 1139-1147). -/
def soValidateAcceptIncomplete (lines : List SalesOrderLineItem) (value : Bool) :
    Except ValidationError Bool :=
  if value = false ∧ so_is_completed lines = false then
    Except.error ⟨some "accept_incomplete", "Order has incomplete line items"⟩
  else
    Except.ok value

/-- The pending (unshipped) shipments of a sales order. -/
def pendingShipments (shipments : List Shipment) : List Shipment :=
  shipments.filter (fun sh => sh.shipment_date.isNone)

/-- Modelled from the spec: `SalesOrder.can_complete` (`order/models.py` is
not among the provided sources).  Spec section 4.3: to complete a sales
order, all shipments must be shipped, and all line items must be fully
shipped unless the caller allows incomplete lines. -/
def so_can_complete (lines : List SalesOrderLineItem) (shipments : List Shipment)
    (allow_incomplete_lines : Bool) : Except ValidationError Unit :=
  if (pendingShipments shipments).isEmpty = false then
    Except.error ⟨none, "Order has incomplete shipments"⟩
  else if allow_incomplete_lines = false ∧ so_is_completed lines = false then
    Except.error ⟨none, "Order has incomplete line items"⟩
  else
    Except.ok ()

/-- The full validation of `SalesOrderCompleteSerializer`: the
`accept_incomplete` field validator, then the `validate` method
(`order/serializers.py` lines 1159-1170) which calls `can_complete` with
the override. -/
def soCompleteRunValidation (lines : List SalesOrderLineItem)
    (shipments : List Shipment) (accept_incomplete : Bool) :
    Except ValidationError Unit :=
  match soValidateAcceptIncomplete lines accept_incomplete with
  | Except.error e => Except.error e
  | Except.ok v => so_can_complete lines shipments v

/-- A `ReturnOrder`, reduced to primary key and status. -/
structure ReturnOrder where
  id : Nat
  status : Nat
deriving DecidableEq

/-- Modelled from the spec: the IN_PROGRESS status code of the return order
state machine (the status-code module is not among the provided sources;
the spec section 4.3 states PENDING, IN_PROGRESS, COMPLETE and CANCELLED
are modelled as 10, 20, 30 and 40). -/
def ReturnOrderStatusInProgressCode : Nat := 20

/-- A `ReturnOrderLineItem`, reduced to the fields the receipt serializer
consults: primary key, owning order and received date (the `received`
property being true when the received date is non-null). -/
structure ReturnOrderLineItem where
  id : Nat
  order : Nat
  received_date : Option Nat
deriving DecidableEq

/-- The body of `ReturnOrderLineItemReceiveSerializer.validate_line_item`
(`order/serializers.py` lines 1564-1573): the line item must match this
order and must not already be received.  The serializer declares its one
field under the name `item`, and the framework dispatches field validators
by name (`validate_` + field name), so it looks for `validate_item` and
never invokes this method: the two checks are dead code. -/
def roValidateLineItem (ord : ReturnOrder) (item : ReturnOrderLineItem) :
    Except ValidationError Unit :=
  if item.order ≠ ord.id then
    Except.error ⟨some "item", "Line item does not match return order"⟩
  else if item.received_date.isSome = true then
    Except.error ⟨some "item", "Line item has already been received"⟩
  else
    Except.ok ()

/-- The child validation the framework actually runs for one entry of the
`items` list of `ReturnOrderReceiveSerializer`: the primary-key related
field resolves the line item against the database, and no custom validator
runs, since no method named `validate_item` exists. -/
def roItemRunValidation (db : List ReturnOrderLineItem)
    (item : ReturnOrderLineItem) : Except ValidationError Unit :=
  if db.contains item = false then
    Except.error ⟨some "items", "Invalid pk"⟩
  else
    Except.ok ()

/-- The full framework validation of `ReturnOrderReceiveSerializer`: the
children resolve first, then `validate` (`order/serializers.py` lines
1598-1612) checks that the order is in progress and rejects an empty
batch. -/
def roReceiveRunValidation (db : List ReturnOrderLineItem) (ord : ReturnOrder)
    (items : List ReturnOrderLineItem) : Except ValidationError Unit :=
  match validateAll (roItemRunValidation db) items with
  | Except.error e => Except.error e
  | Except.ok _ =>
    if ord.status ≠ ReturnOrderStatusInProgressCode then
      Except.error ⟨none, "Items can only be received against orders which are in progress"⟩
    else if items.isEmpty = true then
      Except.error ⟨none, "Line items must be provided"⟩
    else
      Except.ok ()

/-- Decidable observation: the result is an error keyed to the given field. -/
def errorOn (field : String) : Except ValidationError Unit → Bool
  | Except.error e => e.field == some field
  | Except.ok _ => false

/-- Decidable observation: the result is an error. -/
def isErr {α : Type} : Except ValidationError α → Bool
  | Except.error _ => true
  | Except.ok _ => false

theorem validateAll_error_of_mem {α : Type} (f : α → Except ValidationError Unit)
    (l : List α) (x : α) (hx : x ∈ l) (he : ∃ e, f x = Except.error e) :
    ∃ e, validateAll f l = Except.error e := by
  induction l with
  | nil => cases hx
  | cons a as ih =>
    rcases List.mem_cons.mp hx with h | h
    · subst h
      rcases he with ⟨e, he⟩
      exact ⟨e, by simp [validateAll, he]⟩
    · cases hfa : f a with
      | error e => exact ⟨e, by simp [validateAll, hfa]⟩
      | ok u =>
        rcases ih h with ⟨e, hrec⟩
        exact ⟨e, by simp [validateAll, hfa, hrec]⟩

theorem soAllocationItemValidate_over (allocs : List SalesOrderAllocation)
    (stock_item : StockItem) (quantity : ℚ)
    (h : quantity > normalize (unallocated_quantity stock_item allocs)) :
    errorOn "quantity" (soAllocationItemValidate allocs stock_item quantity) = true := by
  unfold soAllocationItemValidate
  by_cases hs : stock_item.serialized = true ∧ quantity ≠ 1
  · rw [if_pos hs]; rfl
  · rw [if_neg hs, if_pos h]; rfl

theorem soAllocationItemRunValidation_error (ord : Nat)
    (allocs : List SalesOrderAllocation) (it : SOAllocationInput)
    (h : it.quantity > normalize (unallocated_quantity it.stock_item allocs)) :
    ∃ e, soAllocationItemRunValidation ord allocs it = Except.error e := by
  unfold soAllocationItemRunValidation
  by_cases h1 : it.line_item.order ≠ ord
  · exact ⟨_, by rw [if_pos h1]⟩
  · by_cases h2 : it.quantity ≤ 0
    · exact ⟨_, by rw [if_neg h1, if_pos h2]⟩
    · have hv := soAllocationItemValidate_over allocs it.stock_item it.quantity h
      cases hval : soAllocationItemValidate allocs it.stock_item it.quantity with
      | error e => exact ⟨e, by rw [if_neg h1, if_neg h2]⟩
      | ok u => rw [hval] at hv; simp [errorOn] at hv

/-- C1: for every sales-order allocation request, if the requested quantity
exceeds the unallocated quantity of the stock item (its quantity minus the
sum of its existing allocation quantities), validation fails with an error
identifying the quantity field, and the request leaves the database state
unchanged, so no allocation record is created. -/
theorem c1_over_allocation_rejected (ord : Nat) (st : SalesState) (sh : Shipment)
    (items : List SOAllocationInput) (it : SOAllocationInput) (hmem : it ∈ items)
    (h : it.quantity > normalize (unallocated_quantity it.stock_item st.allocations)) :
    errorOn "quantity"
        (soAllocationItemValidate st.allocations it.stock_item it.quantity) = true ∧
      soShipmentAllocationApply ord st sh items = st := by
  refine ⟨soAllocationItemValidate_over st.allocations it.stock_item it.quantity h, ?_⟩
  rcases validateAll_error_of_mem (soAllocationItemRunValidation ord st.allocations)
      items it hmem (soAllocationItemRunValidation_error ord st.allocations it h) with ⟨e, he⟩
  unfold soShipmentAllocationApply soShipmentAllocationRunValidation
  rw [he]

/-- Witness for C1: a stock item of quantity 10 with 8 already allocated has
unallocated quantity 2; requesting 3 fails on the quantity field and creates
no allocation row. -/
theorem c1_over_allocation_rejected_witness :
    errorOn "quantity"
        (soAllocationItemValidate [⟨1, 1, 8, 1⟩]
          ⟨1, 1, none, 10, none, 0, "", none⟩ 3) = true ∧
      soShipmentAllocationApply 1
          ⟨[⟨1, 1, none, 10, none, 0, "", none⟩], [⟨1, 1, 8, 1⟩]⟩ ⟨1, 1, none⟩
          [⟨⟨1, 1, 1, 0, 0⟩, ⟨1, 1, none, 10, none, 0, "", none⟩, 3⟩] =
        ⟨[⟨1, 1, none, 10, none, 0, "", none⟩], [⟨1, 1, 8, 1⟩]⟩ :=
  c1_over_allocation_rejected 1
    ⟨[⟨1, 1, none, 10, none, 0, "", none⟩], [⟨1, 1, 8, 1⟩]⟩ ⟨1, 1, none⟩
    [⟨⟨1, 1, 1, 0, 0⟩, ⟨1, 1, none, 10, none, 0, "", none⟩, 3⟩]
    ⟨⟨1, 1, 1, 0, 0⟩, ⟨1, 1, none, 10, none, 0, "", none⟩, 3⟩
    (by simp) (by norm_num [normalize, unallocated_quantity])

/-- C2: for every sales-order allocation request against a serialized stock
item (serial non-null), a quantity other than 1 is rejected with an error on
the quantity field, while quantity 1 passes the serialized-stock check and
the outcome is exactly that of the availability check. -/
theorem c2_serialized_unit_quantity (allocs : List SalesOrderAllocation)
    (stock_item : StockItem) (quantity : ℚ) (h : stock_item.serial.isSome = true) :
    (quantity ≠ 1 →
      errorOn "quantity" (soAllocationItemValidate allocs stock_item quantity) = true) ∧
    (quantity = 1 →
      soAllocationItemValidate allocs stock_item quantity =
        if (1 : ℚ) > normalize (unallocated_quantity stock_item allocs) then
          Except.error ⟨some "quantity", "Available quantity exceeded"⟩
        else
          Except.ok ()) := by
  constructor
  · intro hq
    unfold soAllocationItemValidate
    rw [if_pos ⟨h, hq⟩]
    rfl
  · intro hq
    subst hq
    unfold soAllocationItemValidate
    rw [if_neg (by simp)]

/-- Witness for C2: allocating quantity 2 against the stock item with
quantity 1 and serial SN001 fails on the quantity field. -/
theorem c2_serialized_unit_quantity_witness :
    errorOn "quantity"
        (soAllocationItemValidate []
          ⟨1, 1, some "SN001", 1, none, 0, "", none⟩ 2) = true :=
  (c2_serialized_unit_quantity [] ⟨1, 1, some "SN001", 1, none, 0, "", none⟩ 2
    (by decide)).1 (by decide)

/-- C3: once the shipment date of a shipment is set, both allocation paths
(the bulk item allocation and the serial-number allocation) reject the
shipment in `validate_shipment`, and both requests leave the database state
unchanged, so a shipped shipment never gains a new allocation. -/
theorem c3_shipped_shipment_rejects_allocation (ord : Nat) (sh : Shipment) (d : Nat)
    (hd : sh.shipment_date = some d) :
    soShipmentAllocValidateShipment ord sh =
        Except.error ⟨none, "Shipment has already been shipped"⟩ ∧
      soSerialAllocValidateShipment ord sh =
        Except.error ⟨none, "Shipment has already been shipped"⟩ ∧
      (∀ st items, soShipmentAllocationApply ord st sh items = st) ∧
      (∀ st line_item quantity serial_numbers,
        soSerialAllocationApply ord st line_item quantity serial_numbers sh = st) := by
  have hsome : sh.shipment_date.isSome = true := by rw [hd]; rfl
  refine ⟨?_, ?_, ?_, ?_⟩
  · unfold soShipmentAllocValidateShipment
    rw [if_pos hsome]
  · unfold soSerialAllocValidateShipment
    rw [if_pos hsome]
  · intro st items
    unfold soShipmentAllocationApply
    cases hrv : soShipmentAllocationRunValidation ord st sh items with
    | error e => rfl
    | ok u =>
      exfalso
      unfold soShipmentAllocationRunValidation at hrv
      cases hvv : validateAll (soAllocationItemRunValidation ord st.allocations) items with
      | error e => rw [hvv] at hrv; cases hrv
      | ok v =>
        rw [hvv] at hrv
        unfold soShipmentAllocValidateShipment at hrv
        rw [if_pos hsome] at hrv
        cases hrv
  · intro st line_item quantity serial_numbers
    unfold soSerialAllocationApply
    cases hrv : soSerialAllocationRunValidation ord st line_item quantity serial_numbers sh with
    | error e => rfl
    | ok xs =>
      exfalso
      unfold soSerialAllocationRunValidation at hrv
      by_cases h1 : line_item.order ≠ ord
      · rw [if_pos h1] at hrv; cases hrv
      · rw [if_neg h1] at hrv
        by_cases h2 : quantity < 1
        · rw [if_pos h2] at hrv; cases hrv
        · rw [if_neg h2] at hrv
          by_cases h3 : serial_numbers = ""
          · rw [if_pos h3] at hrv; cases hrv
          · rw [if_neg h3] at hrv
            unfold soSerialAllocValidateShipment at hrv
            rw [if_pos hsome] at hrv
            cases hrv

/-- Witness for C3: a shipment whose shipment date is set to day 5 is
rejected by the bulk validate_shipment, and both allocation requests leave
an empty database state unchanged. -/
theorem c3_shipped_shipment_rejects_allocation_witness :
    soShipmentAllocValidateShipment 1 ⟨1, 1, some 5⟩ =
        Except.error ⟨none, "Shipment has already been shipped"⟩ ∧
      soShipmentAllocationApply 1 ⟨[], []⟩ ⟨1, 1, some 5⟩ [] = ⟨[], []⟩ ∧
      soSerialAllocationApply 1 ⟨[], []⟩ ⟨1, 1, 1, 0, 0⟩ 1 "1" ⟨1, 1, some 5⟩ = ⟨[], []⟩ :=
  ⟨(c3_shipped_shipment_rejects_allocation 1 ⟨1, 1, some 5⟩ 5 rfl).1,
    (c3_shipped_shipment_rejects_allocation 1 ⟨1, 1, some 5⟩ 5 rfl).2.2.1 ⟨[], []⟩ [],
    (c3_shipped_shipment_rejects_allocation 1 ⟨1, 1, some 5⟩ 5 rfl).2.2.2
      ⟨[], []⟩ ⟨1, 1, 1, 0, 0⟩ 1 "1"⟩

/-- C9: every serial specification accepted by the extractor with expected
count N yields exactly N pairwise distinct serials, and the concrete
specification "1, 2, 4+" with expected count 5 and hint 1 expands, in input
order, to the serials 1, 2, 4, 5, 6. -/
theorem c9_serial_extraction_roundtrip :
    (∀ (spec : String) (expected next_hint : Nat) (serials : List String),
      extract_serial_numbers spec expected next_hint = Except.ok serials →
        serials.length = expected ∧ serials.Nodup) ∧
      extract_serial_numbers "1, 2, 4+" 5 1 = Except.ok ["1", "2", "4", "5", "6"] := by
  constructor
  · intro spec expected next_hint serials h
    unfold extract_serial_numbers at h
    by_cases ht : (snTokenize spec).isEmpty = true
    · rw [if_pos ht] at h; cases h
    · rw [if_neg ht] at h
      cases hex : snExpandAll expected (snTokenize spec) next_hint [] with
      | error e => rw [hex] at h; cases h
      | ok s =>
        rw [hex] at h
        dsimp only at h
        by_cases hlen : s.length = expected
        · rw [if_pos hlen] at h
          by_cases hnd : s.Nodup
          · rw [if_pos hnd] at h
            cases h
            exact ⟨hlen, hnd⟩
          · rw [if_neg hnd] at h; cases h
        · rw [if_neg hlen] at h; cases h
  · rfl

/-- Witness for C9: the sequence extracted from "1, 2, 4+" has length 5 and
no duplicates. -/
theorem c9_serial_extraction_roundtrip_witness :
    (["1", "2", "4", "5", "6"] : List String).length = 5 ∧
      (["1", "2", "4", "5", "6"] : List String).Nodup :=
  c9_serial_extraction_roundtrip.1 "1, 2, 4+" 5 1 ["1", "2", "4", "5", "6"]
    c9_serial_extraction_roundtrip.2

/-- C4: a purchase-order receipt batch is all-or-nothing: whenever the
request errors, be it an item failing validation or a model-level validation
error raised during the mutation phase (re-raised by the save loop as the
single serializer validation-error kind), the applied state equals the
original state: no stock item is created and no received quantity changes
for any line item. -/
theorem c4_receipt_batch_atomic (ord : Nat) (st : POState)
    (default_location : Option Nat) (items : List POReceiveItem)
    (e : ValidationError)
    (h : poReceiveRun ord st default_location items = Except.error e) :
    poReceiveApply ord st default_location items = st ∧
      (poReceiveApply ord st default_location items).stockItems = st.stockItems ∧
      (poReceiveApply ord st default_location items).lines = st.lines := by
  have happ : poReceiveApply ord st default_location items = st := by
    unfold poReceiveApply
    rw [h]
  exact ⟨happ, by rw [happ], by rw [happ]⟩

/-- Witness for C4: a two-item batch that passes validation but whose second
item raises a model-level error during mutation (its serial 9 already exists
for the part) leaves the state untouched, including the stock created for
the first item. -/
theorem c4_receipt_batch_atomic_witness :
    poReceiveApply 1
        ⟨[⟨10, 1, some "9", 1, some 3, 0, "", none⟩],
          [⟨1, 1, 5, 0, some 7, 1, true⟩, ⟨2, 1, 5, 0, some 7, 1, true⟩]⟩ (some 9)
        [⟨⟨1, 1, 5, 0, some 7, 1, true⟩, some 3, 1, 0, "", "10", ""⟩,
          ⟨⟨2, 1, 5, 0, some 7, 1, true⟩, some 3, 1, 0, "", "9", ""⟩] =
      ⟨[⟨10, 1, some "9", 1, some 3, 0, "", none⟩],
        [⟨1, 1, 5, 0, some 7, 1, true⟩, ⟨2, 1, 5, 0, some 7, 1, true⟩]⟩ :=
  (c4_receipt_batch_atomic 1
    ⟨[⟨10, 1, some "9", 1, some 3, 0, "", none⟩],
      [⟨1, 1, 5, 0, some 7, 1, true⟩, ⟨2, 1, 5, 0, some 7, 1, true⟩]⟩ (some 9)
    [⟨⟨1, 1, 5, 0, some 7, 1, true⟩, some 3, 1, 0, "", "10", ""⟩,
      ⟨⟨2, 1, 5, 0, some 7, 1, true⟩, some 3, 1, 0, "", "9", ""⟩]
    ⟨none, "Serial number already exists"⟩ (by rfl)).1

/-- C5 counterexample: the spec resolves the effective location as the item
location, else the line destination, else the batch default, which here
yields location 7; the code instead consults the batch default before the
line destination and stores the received stock at location 9. -/
theorem c5_location_order_counterexample :
    specEffectiveLocation none (some 7) (some 9) = some 7 ∧
      poEffectiveLocation ⟨⟨1, 1, 5, 0, some 7, 1, false⟩, none, 1, 0, "", none, none⟩
          (some 9) = some 9 ∧
      (poReceiveApply 1 ⟨[], [⟨1, 1, 5, 0, some 7, 1, false⟩]⟩ (some 9)
          [⟨⟨1, 1, 5, 0, some 7, 1, false⟩, none, 1, 0, "", "", ""⟩]).stockItems =
        [⟨0, 1, none, 1, some 9, 0, "", none⟩] :=
  ⟨rfl, rfl, rfl⟩

/-- C5 (amended): for every item of a purchase-order receipt batch, the
effective destination is resolved in the order item location, then
batch-level default location, then line-item destination; when every item
resolves, validation rewrites each item location to its effective location,
and when any item fails to resolve, the batch fails with an error on the
location field. -/
theorem c5_location_resolution (default_location : Option Nat)
    (items : List POValidatedItem) :
    ((∀ it ∈ items, (poEffectiveLocation it default_location).isSome = true) →
      poResolveLocations default_location items =
        Except.ok (items.map (fun it =>
          { it with location := poEffectiveLocation it default_location }))) ∧
      ((∃ it ∈ items, poEffectiveLocation it default_location = none) →
        poResolveLocations default_location items =
          Except.error ⟨some "location", "Destination location must be specified"⟩) := by
  induction items with
  | nil =>
    refine ⟨fun _ => rfl, fun h => ?_⟩
    rcases h with ⟨it, hmem, _⟩
    cases hmem
  | cons a rest ih =>
    constructor
    · intro hall
      have ha := hall a (List.mem_cons_self a rest)
      cases hae : poEffectiveLocation a default_location with
      | none => rw [hae] at ha; cases ha
      | some l =>
        have hrest := ih.1 (fun it hit => hall it (List.mem_cons_of_mem a hit))
        unfold poResolveLocations
        rw [hae, hrest]
        simp [hae]
    · intro hex
      rcases hex with ⟨it, hmem, hnone⟩
      rcases List.mem_cons.mp hmem with heq | hmem2
      · subst heq
        unfold poResolveLocations
        rw [hnone]
      · cases hae : poEffectiveLocation a default_location with
        | none =>
          unfold poResolveLocations
          rw [hae]
        | some l =>
          have hrest := ih.2 ⟨it, hmem2, hnone⟩
          unfold poResolveLocations
          rw [hae, hrest]

/-- Witness for C5: an item with its own location keeps it, and an item with
no item location, no batch default and no line destination fails on the
location field. -/
theorem c5_location_resolution_witness :
    poResolveLocations (some 9)
        [⟨⟨1, 1, 5, 0, some 7, 1, false⟩, some 3, 1, 0, "", none, none⟩] =
      Except.ok [⟨⟨1, 1, 5, 0, some 7, 1, false⟩, some 3, 1, 0, "", none, none⟩] ∧
      poResolveLocations none
          [⟨⟨1, 1, 5, 0, none, 1, false⟩, none, 1, 0, "", none, none⟩] =
        Except.error ⟨some "location", "Destination location must be specified"⟩ :=
  ⟨(c5_location_resolution (some 9)
      [⟨⟨1, 1, 5, 0, some 7, 1, false⟩, some 3, 1, 0, "", none, none⟩]).1
      (by simp [poEffectiveLocation]),
    (c5_location_resolution none
      [⟨⟨1, 1, 5, 0, none, 1, false⟩, none, 1, 0, "", none, none⟩]).2
      ⟨⟨⟨1, 1, 5, 0, none, 1, false⟩, none, 1, 0, "", none, none⟩,
        List.mem_singleton.mpr rfl, rfl⟩⟩

/-- C7 counterexample: a sales order whose one line item is fully shipped,
completed with the override set, is still rejected, because an unshipped
pending shipment remains; the claim that the completion proceeds whenever
the override is set or all line items are complete is false for sales
orders. -/
theorem c7_pending_shipment_counterexample :
    soCompleteRunValidation [⟨1, 1, 1, 1, 1⟩] [⟨1, 1, none⟩] true =
      Except.error ⟨none, "Order has incomplete shipments"⟩ :=
  rfl

/-- C7 (amended): an order-completion request with incomplete line items and
no override fails on the accept_incomplete field for both order families;
with the override set or all line items complete, the purchase-order
completion proceeds, while the sales-order completion additionally requires
every shipment to be shipped. -/
theorem c7_completion_override (polines : List POLineItem)
    (solines : List SalesOrderLineItem) (shipments : List Shipment)
    (accept : Bool) :
    (po_is_complete polines = false →
      poCompleteRunValidation polines false =
        Except.error ⟨some "accept_incomplete", "Order has incomplete line items"⟩) ∧
      (accept = true ∨ po_is_complete polines = true →
        poCompleteRunValidation polines accept = Except.ok ()) ∧
      (so_is_completed solines = false →
        soCompleteRunValidation solines shipments false =
          Except.error ⟨some "accept_incomplete", "Order has incomplete line items"⟩) ∧
      ((accept = true ∨ so_is_completed solines = true) →
        (pendingShipments shipments).isEmpty = true →
        soCompleteRunValidation solines shipments accept = Except.ok ()) := by
  refine ⟨?_, ?_, ?_, ?_⟩
  · intro hpo
    unfold poCompleteRunValidation poValidateAcceptIncomplete
    rw [if_pos ⟨rfl, hpo⟩]
  · intro hor
    have hnc : ¬(accept = false ∧ po_is_complete polines = false) := by
      rcases hor with h | h
      · intro hc; rw [h] at hc; cases hc.1
      · intro hc; rw [h] at hc; cases hc.2
    unfold poCompleteRunValidation poValidateAcceptIncomplete
    rw [if_neg hnc]
  · intro hso
    unfold soCompleteRunValidation soValidateAcceptIncomplete
    rw [if_pos ⟨rfl, hso⟩]
  · intro hor hpend
    have hnc : ¬(accept = false ∧ so_is_completed solines = false) := by
      rcases hor with h | h
      · intro hc; rw [h] at hc; cases hc.1
      · intro hc; rw [h] at hc; cases hc.2
    have hp : ¬((pendingShipments shipments).isEmpty = false) := by
      rw [hpend]; simp
    unfold soCompleteRunValidation soValidateAcceptIncomplete
    rw [if_neg hnc]
    show so_can_complete solines shipments accept = Except.ok ()
    unfold so_can_complete
    rw [if_neg hp, if_neg hnc]

/-- Witness for C7: a purchase order with one unreceived line and no
override is rejected, and a fully shipped sales order with the override and
no pending shipment completes. -/
theorem c7_completion_override_witness :
    poCompleteRunValidation [⟨1, 1, 5, 0, some 7, 1, false⟩] false =
        Except.error ⟨some "accept_incomplete", "Order has incomplete line items"⟩ ∧
      soCompleteRunValidation [⟨1, 1, 1, 0, 0⟩] [⟨1, 1, some 3⟩] true = Except.ok () :=
  ⟨(c7_completion_override [⟨1, 1, 5, 0, some 7, 1, false⟩] [] [] false).1 (by decide),
    (c7_completion_override [] [⟨1, 1, 1, 0, 0⟩] [⟨1, 1, some 3⟩] true).2.2.2
      (Or.inl rfl) (by decide)⟩

/-- C8: the return-order receipt batch accepts a line item that belongs to a
different order and is already received, because the serializer declares the
field as `item` while naming its validator `validate_line_item`, which the
framework therefore never invokes; the dead validator body would have
rejected the item, and the in-progress status gate itself works. -/
theorem c8_return_receipt_dead_validator :
    roReceiveRunValidation [⟨7, 2, some 3⟩] ⟨1, 20⟩ [⟨7, 2, some 3⟩] =
        Except.ok () ∧
      roValidateLineItem ⟨1, 20⟩ ⟨7, 2, some 3⟩ =
        Except.error ⟨some "item", "Line item does not match return order"⟩ ∧
      roReceiveRunValidation [⟨7, 2, some 3⟩] ⟨1, 10⟩ [⟨7, 2, some 3⟩] =
        Except.error ⟨none, "Items can only be received against orders which are in progress"⟩ :=
  ⟨rfl, rfl, rfl⟩

/-- Helper for C6 and C10: a receipt item whose barcode is blank validates
to an absent barcode. -/
theorem poItemRunValidation_blank_barcode (ord : Nat) (sts : List StockItem)
    (it : POReceiveItem) (v : POValidatedItem) (hb : isBlank it.barcode = true)
    (h : poItemRunValidation ord sts it = Except.ok v) : v.barcode = none := by
  unfold poItemRunValidation at h
  by_cases h1 : it.line_item.order ≠ ord
  · rw [if_pos h1] at h; cases h
  · rw [if_neg h1] at h
    by_cases h2 : it.quantity ≤ 0
    · rw [if_pos h2] at h; cases h
    · rw [if_neg h2] at h
      unfold poValidateBarcode at h
      rw [if_pos hb] at h
      dsimp only at h
      unfold poItemValidate at h
      by_cases h3 : it.line_item.trackable = true ∧ it.quantity.den ≠ 1
      · rw [if_pos h3] at h; cases h
      · rw [if_neg h3] at h
        by_cases h4 : isBlank it.serial_numbers = false
        · rw [if_pos h4] at h
          cases hex : extract_serial_numbers it.serial_numbers it.quantity.floor.toNat
              (getLatestSerialNumber sts it.line_item.part) with
          | error e => rw [hex] at h; cases h
          | ok serials => rw [hex] at h; cases h; rfl
        · rw [if_neg h4] at h; cases h; rfl

/-- C10: a blank (empty or whitespace-only) barcode is normalized to absent
by the field validator regardless of the stock state, so it is excluded from
the existing-stock lookup; every item of a batch whose barcodes are all
blank validates to an absent barcode; and the intra-batch uniqueness loop
skips absent barcodes, accepting any number of them. -/
theorem c10_blank_barcode_excluded :
    (∀ (stockItems : List StockItem) (b : String), isBlank b = true →
      poValidateBarcode stockItems b = Except.ok none) ∧
      (∀ (ord : Nat) (sts : List StockItem) (items : List POReceiveItem)
          (vs : List POValidatedItem),
        poItemsRunValidation ord sts items = Except.ok vs →
        (∀ it ∈ items, isBlank it.barcode = true) → ∀ v ∈ vs, v.barcode = none) ∧
      (∀ (seen : List String) (vs : List POValidatedItem),
        (∀ v ∈ vs, v.barcode = none) → poBarcodeCheck seen vs = Except.ok ()) := by
  refine ⟨?_, ?_, ?_⟩
  · intro stockItems b hb
    unfold poValidateBarcode
    rw [if_pos hb]
  · intro ord sts items
    induction items with
    | nil =>
      intro vs h hall v hv
      cases h
      cases hv
    | cons it rest ih =>
      intro vs h hall v hv
      unfold poItemsRunValidation at h
      cases hchild : poItemRunValidation ord sts it with
      | error e => rw [hchild] at h; cases h
      | ok w =>
        rw [hchild] at h
        cases hrest : poItemsRunValidation ord sts rest with
        | error e => rw [hrest] at h; cases h
        | ok ws =>
          rw [hrest] at h
          cases h
          rcases List.mem_cons.mp hv with hveq | hvmem
          · subst hveq
            exact poItemRunValidation_blank_barcode ord sts it v
              (hall it (List.mem_cons_self it rest)) hchild
          · exact ih ws hrest (fun x hx => hall x (List.mem_cons_of_mem it hx)) v hvmem
  · intro seen vs
    induction vs generalizing seen with
    | nil => intro _; rfl
    | cons v rest ih =>
      intro hall
      have hv := hall v (List.mem_cons_self v rest)
      unfold poBarcodeCheck
      rw [hv]
      exact ih seen (fun x hx => hall x (List.mem_cons_of_mem v hx))

/-- Witness for C10: a whitespace barcode validates to absent even when that
exact string is assigned as a barcode hash in stock, and a batch of two
items with absent barcodes passes the uniqueness loop. -/
theorem c10_blank_barcode_excluded_witness :
    poValidateBarcode [⟨1, 1, none, 1, none, 0, "", some " "⟩] " " =
        Except.ok none ∧
      poBarcodeCheck []
          [⟨⟨1, 1, 5, 0, some 7, 1, false⟩, some 3, 1, 0, "", none, none⟩,
            ⟨⟨2, 1, 5, 0, some 7, 1, false⟩, some 3, 1, 0, "", none, none⟩] =
        Except.ok () :=
  ⟨c10_blank_barcode_excluded.1 [⟨1, 1, none, 1, none, 0, "", some " "⟩] " "
      (by decide),
    c10_blank_barcode_excluded.2.2 []
      [⟨⟨1, 1, 5, 0, some 7, 1, false⟩, some 3, 1, 0, "", none, none⟩,
        ⟨⟨2, 1, 5, 0, some 7, 1, false⟩, some 3, 1, 0, "", none, none⟩]
      (by decide)⟩

/-- Helper for C6: a receipt item with a non-blank barcode that validates
carries that barcode through to the validated item. -/
theorem poItemRunValidation_nonblank_barcode (ord : Nat) (sts : List StockItem)
    (it : POReceiveItem) (v : POValidatedItem) (hb : isBlank it.barcode = false)
    (h : poItemRunValidation ord sts it = Except.ok v) :
    v.barcode = some it.barcode := by
  unfold poItemRunValidation at h
  by_cases h1 : it.line_item.order ≠ ord
  · rw [if_pos h1] at h; cases h
  · rw [if_neg h1] at h
    by_cases h2 : it.quantity ≤ 0
    · rw [if_pos h2] at h; cases h
    · rw [if_neg h2] at h
      unfold poValidateBarcode at h
      rw [if_neg (by rw [hb]; simp)] at h
      by_cases h5 : (lookup_barcode sts (hash_barcode it.barcode)).isSome = true
      · rw [if_pos h5] at h; cases h
      · rw [if_neg h5] at h
        dsimp only at h
        unfold poItemValidate at h
        by_cases h3 : it.line_item.trackable = true ∧ it.quantity.den ≠ 1
        · rw [if_pos h3] at h; cases h
        · rw [if_neg h3] at h
          by_cases h4 : isBlank it.serial_numbers = false
          · rw [if_pos h4] at h
            cases hex : extract_serial_numbers it.serial_numbers it.quantity.floor.toNat
                (getLatestSerialNumber sts it.line_item.part) with
            | error e => rw [hex] at h; cases h
            | ok serials => rw [hex] at h; cases h; rfl
          · rw [if_neg h4] at h; cases h; rfl

/-- Helper for C6: a receipt item with a non-blank barcode whose hash is
already assigned in stock fails its field validation. -/
theorem poItemRunValidation_stock_barcode_error (ord : Nat) (sts : List StockItem)
    (it : POReceiveItem) (hb : isBlank it.barcode = false)
    (hs : (lookup_barcode sts (hash_barcode it.barcode)).isSome = true) :
    isErr (poItemRunValidation ord sts it) = true := by
  unfold poItemRunValidation
  by_cases h1 : it.line_item.order ≠ ord
  · rw [if_pos h1]; rfl
  · rw [if_neg h1]
    by_cases h2 : it.quantity ≤ 0
    · rw [if_pos h2]; rfl
    · rw [if_neg h2]
      unfold poValidateBarcode
      rw [if_neg (by rw [hb]; simp), if_pos hs]
      rfl

/-- Helper for C6: one failing item makes the whole nested item validation
fail. -/
theorem poItemsRunValidation_error_of_mem (ord : Nat) (sts : List StockItem)
    (items : List POReceiveItem) (it : POReceiveItem) (hmem : it ∈ items)
    (he : isErr (poItemRunValidation ord sts it) = true) :
    isErr (poItemsRunValidation ord sts items) = true := by
  induction items with
  | nil => cases hmem
  | cons a rest ih =>
    rcases List.mem_cons.mp hmem with heq | hmem2
    · subst heq
      cases ha : poItemRunValidation ord sts it with
      | error e => unfold poItemsRunValidation; rw [ha]; rfl
      | ok w => rw [ha] at he; simp [isErr] at he
    · cases ha : poItemRunValidation ord sts a with
      | error e => unfold poItemsRunValidation; rw [ha]; rfl
      | ok w =>
        have hrec := ih hmem2
        unfold poItemsRunValidation
        rw [ha]
        cases hrest : poItemsRunValidation ord sts rest with
        | error e => rfl
        | ok vs => rw [hrest] at hrec; simp [isErr] at hrec

/-- Helper for C6: the number of receipt items carrying a given non-blank
barcode is bounded by the number of validated items carrying it. -/
theorem poItemsRunValidation_count (ord : Nat) (sts : List StockItem) (b : String)
    (hb : isBlank b = false) :
    ∀ (items : List POReceiveItem) (vs : List POValidatedItem),
      poItemsRunValidation ord sts items = Except.ok vs →
      items.countP (fun it => it.barcode == b) ≤
        List.count (some b) (vs.map (fun v => v.barcode)) := by
  intro items
  induction items with
  | nil => intro vs h; cases h; simp
  | cons it rest ih =>
    intro vs h
    unfold poItemsRunValidation at h
    cases hchild : poItemRunValidation ord sts it with
    | error e => rw [hchild] at h; cases h
    | ok w =>
      rw [hchild] at h
      cases hrest : poItemsRunValidation ord sts rest with
      | error e => rw [hrest] at h; cases h
      | ok ws =>
        rw [hrest] at h
        cases h
        by_cases hbeq : it.barcode = b
        · have hwb : w.barcode = some it.barcode :=
            poItemRunValidation_nonblank_barcode ord sts it w (hbeq ▸ hb) hchild
          rw [List.countP_cons, List.map_cons, List.count_cons, hwb, hbeq]
          simp only [beq_self_eq_true, if_true]
          exact Nat.add_le_add_right (ih ws hrest) 1
        · have h1 : (it.barcode == b) = false := by
            simp [hbeq]
          rw [List.countP_cons, List.map_cons, List.count_cons, h1]
          have h2 : (if (false : Bool) = true then 1 else 0) = 0 := rfl
          rw [h2, Nat.add_zero]
          exact Nat.le_trans (ih ws hrest) (Nat.le_add_right _ _)

/-- Helper for C6: the location resolution loop does not change the barcode
sequence of the batch. -/
theorem poResolveLocations_barcodes (default_location : Option Nat) :
    ∀ (items rs : List POValidatedItem),
      poResolveLocations default_location items = Except.ok rs →
      rs.map (fun v => v.barcode) = items.map (fun v => v.barcode) := by
  intro items
  induction items with
  | nil => intro rs h; cases h; rfl
  | cons a rest ih =>
    intro rs h
    unfold poResolveLocations at h
    cases hae : poEffectiveLocation a default_location with
    | none => rw [hae] at h; cases h
    | some l =>
      rw [hae] at h
      cases hrest : poResolveLocations default_location rest with
      | error e => rw [hrest] at h; cases h
      | ok rs2 =>
        rw [hrest] at h
        cases h
        simp [ih rs2 hrest]

/-- Helper for C6: after the uniqueness loop succeeds, a barcode already in
the seen set does not occur in the batch at all. -/
theorem poBarcodeCheck_ok_mem_count (b : String) :
    ∀ (l : List POValidatedItem) (seen : List String),
      poBarcodeCheck seen l = Except.ok () → b ∈ seen →
      List.count (some b) (l.map (fun v => v.barcode)) = 0 := by
  intro l
  induction l with
  | nil => intro seen _ _; rfl
  | cons v rest ih =>
    intro seen h hbseen
    unfold poBarcodeCheck at h
    cases hvb : v.barcode with
    | none =>
      rw [hvb] at h
      rw [List.map_cons, List.count_cons, hvb]
      simp [ih seen h hbseen]
    | some c =>
      rw [hvb] at h
      dsimp only at h
      by_cases hcs : c ∈ seen
      · rw [if_pos hcs] at h; cases h
      · rw [if_neg hcs] at h
        have hcb : ¬(c = b) := fun hcb2 => hcs (by rw [hcb2]; exact hbseen)
        rw [List.map_cons, List.count_cons, hvb]
        simp [ih (seen ++ [c]) h (List.mem_append_left _ hbseen), hcb]

/-- Helper for C6: after the uniqueness loop succeeds from a seen set not
containing a barcode, that barcode occurs at most once in the batch. -/
theorem poBarcodeCheck_ok_count_le_one (b : String) :
    ∀ (l : List POValidatedItem) (seen : List String),
      poBarcodeCheck seen l = Except.ok () → b ∉ seen →
      List.count (some b) (l.map (fun v => v.barcode)) ≤ 1 := by
  intro l
  induction l with
  | nil => intro seen _ _; simp
  | cons v rest ih =>
    intro seen h hbn
    unfold poBarcodeCheck at h
    cases hvb : v.barcode with
    | none =>
      rw [hvb] at h
      rw [List.map_cons, List.count_cons, hvb]
      simpa using ih seen h hbn
    | some c =>
      rw [hvb] at h
      dsimp only at h
      by_cases hcs : c ∈ seen
      · rw [if_pos hcs] at h; cases h
      · rw [if_neg hcs] at h
        by_cases hcb : c = b
        · subst hcb
          have h0 := poBarcodeCheck_ok_mem_count c rest (seen ++ [c]) h (by simp)
          rw [List.map_cons, List.count_cons, hvb, h0]
          simp
        · have hrec := ih (seen ++ [c]) h (by
            intro hx
            rcases List.mem_append.mp hx with hx1 | hx2
            · exact hbn hx1
            · exact hcb (List.mem_singleton.mp hx2).symm)
          rw [List.map_cons, List.count_cons, hvb]
          simp only [beq_iff_eq, Option.some.injEq]
          rw [if_neg hcb]
          simpa using hrec

/-- Helper for C6 and C10: a batch whose validation errors is rolled back
entirely. -/
theorem poReceive_rollback_of_validation_error (ord : Nat) (st : POState)
    (default_location : Option Nat) (items : List POReceiveItem)
    (h : isErr (poReceiveRunValidation ord st default_location items) = true) :
    poReceiveApply ord st default_location items = st := by
  unfold poReceiveApply poReceiveRun
  cases hv : poReceiveRunValidation ord st default_location items with
  | error e => rfl
  | ok _ => rw [hv] at h; simp [isErr] at h

/-- C6: a purchase-order receipt batch in which two items supply the same
non-blank barcode, or in which any item supplies a non-blank barcode whose
hash is already assigned to an existing stock item, fails validation, and
the request leaves the database state unchanged, so no stock item is
persisted. -/
theorem c6_barcode_uniqueness (ord : Nat) (st : POState)
    (default_location : Option Nat) (items : List POReceiveItem) :
    ((∃ l1 it1 l2 it2 l3, items = l1 ++ it1 :: (l2 ++ it2 :: l3) ∧
        it1.barcode = it2.barcode ∧ isBlank it1.barcode = false) →
      isErr (poReceiveRunValidation ord st default_location items) = true ∧
        poReceiveApply ord st default_location items = st) ∧
      ((∃ it ∈ items, isBlank it.barcode = false ∧
          (lookup_barcode st.stockItems (hash_barcode it.barcode)).isSome = true) →
        isErr (poReceiveRunValidation ord st default_location items) = true ∧
          poReceiveApply ord st default_location items = st) := by
  constructor
  · rintro ⟨l1, it1, l2, it2, l3, hdec, hbc, hb⟩
    have hrun : isErr (poReceiveRunValidation ord st default_location items) = true := by
      cases hv : poReceiveRunValidation ord st default_location items with
      | error e => rfl
      | ok ritems =>
        exfalso
        unfold poReceiveRunValidation at hv
        cases hiv : poItemsRunValidation ord st.stockItems items with
        | error e => rw [hiv] at hv; cases hv
        | ok vs =>
          rw [hiv] at hv
          dsimp only at hv
          by_cases hemp : vs.isEmpty = true
          · rw [if_pos hemp] at hv; cases hv
          · rw [if_neg hemp] at hv
            cases hrl : poResolveLocations default_location vs with
            | error e => rw [hrl] at hv; cases hv
            | ok rs =>
              rw [hrl] at hv
              dsimp only at hv
              cases hbchk : poBarcodeCheck [] rs with
              | error e => rw [hbchk] at hv; cases hv
              | ok u =>
                have hcount2 :
                    2 ≤ items.countP (fun it => it.barcode == it1.barcode) := by
                  subst hdec
                  simp only [List.countP_append, List.countP_cons, ← hbc,
                    beq_self_eq_true, if_true]
                  omega
                have hle := poItemsRunValidation_count ord st.stockItems it1.barcode
                  hb items vs hiv
                have hmapeq := poResolveLocations_barcodes default_location vs rs hrl
                cases u
                have hone := poBarcodeCheck_ok_count_le_one it1.barcode rs [] hbchk
                  (by simp)
                rw [hmapeq] at hone
                omega
    exact ⟨hrun, poReceive_rollback_of_validation_error ord st default_location items hrun⟩
  · rintro ⟨it, hmem, hb, hs⟩
    have herr := poItemsRunValidation_error_of_mem ord st.stockItems items it hmem
      (poItemRunValidation_stock_barcode_error ord st.stockItems it hb hs)
    have hrun : isErr (poReceiveRunValidation ord st default_location items) = true := by
      unfold poReceiveRunValidation
      cases hiv : poItemsRunValidation ord st.stockItems items with
      | error e => rfl
      | ok vs => rw [hiv] at herr; simp [isErr] at herr
    exact ⟨hrun, poReceive_rollback_of_validation_error ord st default_location items hrun⟩

/-- Witness for C6: a batch of two items sharing the barcode X is rejected
and rolled back, and a one-item batch whose barcode Y is already assigned
in stock is rejected and rolled back. -/
theorem c6_barcode_uniqueness_witness :
    (isErr (poReceiveRunValidation 1 ⟨[], [⟨1, 1, 5, 0, some 7, 1, false⟩]⟩ (some 3)
          [⟨⟨1, 1, 5, 0, some 7, 1, false⟩, some 3, 1, 0, "", "", "X"⟩,
            ⟨⟨1, 1, 5, 0, some 7, 1, false⟩, some 3, 1, 0, "", "", "X"⟩]) = true ∧
        poReceiveApply 1 ⟨[], [⟨1, 1, 5, 0, some 7, 1, false⟩]⟩ (some 3)
            [⟨⟨1, 1, 5, 0, some 7, 1, false⟩, some 3, 1, 0, "", "", "X"⟩,
              ⟨⟨1, 1, 5, 0, some 7, 1, false⟩, some 3, 1, 0, "", "", "X"⟩] =
          ⟨[], [⟨1, 1, 5, 0, some 7, 1, false⟩]⟩) ∧
      (isErr (poReceiveRunValidation 1
            ⟨[⟨5, 1, none, 1, none, 0, "", some "Y"⟩], [⟨1, 1, 5, 0, some 7, 1, false⟩]⟩
            (some 3) [⟨⟨1, 1, 5, 0, some 7, 1, false⟩, some 3, 1, 0, "", "", "Y"⟩]) = true ∧
        poReceiveApply 1
            ⟨[⟨5, 1, none, 1, none, 0, "", some "Y"⟩], [⟨1, 1, 5, 0, some 7, 1, false⟩]⟩
            (some 3) [⟨⟨1, 1, 5, 0, some 7, 1, false⟩, some 3, 1, 0, "", "", "Y"⟩] =
          ⟨[⟨5, 1, none, 1, none, 0, "", some "Y"⟩], [⟨1, 1, 5, 0, some 7, 1, false⟩]⟩) :=
  ⟨(c6_barcode_uniqueness 1 ⟨[], [⟨1, 1, 5, 0, some 7, 1, false⟩]⟩ (some 3)
      [⟨⟨1, 1, 5, 0, some 7, 1, false⟩, some 3, 1, 0, "", "", "X"⟩,
        ⟨⟨1, 1, 5, 0, some 7, 1, false⟩, some 3, 1, 0, "", "", "X"⟩]).1
      ⟨[], ⟨⟨1, 1, 5, 0, some 7, 1, false⟩, some 3, 1, 0, "", "", "X"⟩, [],
        ⟨⟨1, 1, 5, 0, some 7, 1, false⟩, some 3, 1, 0, "", "", "X"⟩, [],
        rfl, rfl, rfl⟩,
    (c6_barcode_uniqueness 1
      ⟨[⟨5, 1, none, 1, none, 0, "", some "Y"⟩], [⟨1, 1, 5, 0, some 7, 1, false⟩]⟩
      (some 3) [⟨⟨1, 1, 5, 0, some 7, 1, false⟩, some 3, 1, 0, "", "", "Y"⟩]).2
      ⟨⟨⟨1, 1, 5, 0, some 7, 1, false⟩, some 3, 1, 0, "", "", "Y"⟩,
        List.mem_singleton.mpr rfl, rfl, rfl⟩⟩

end InvenTree
